import Mathlib

/-!
A shallow embedding of `modules/planning/scenarios/side_pass/side_pass_scenario.cc`:
the side-pass scenario decision logic (`IsTransferable`, `IsFarFromDestination`,
`IsFarFromIntersection`, `HasBlockingObstacle`, `CreateStage` and the stage
registry).  The external capabilities (the obstacle classifier
`IsBlockingObstacleToSidePass`, the distance metric
`GetDistanceBetweenADCAndObstacle`, and the gflags) are passed in as explicit
parameters.  C++ doubles are modelled as rationals.  The mutable scenario
object (`side_pass_context_`, `msg_`) and the cross-cycle
`PlanningContext::GetScenarioInfo()` slot are threaded explicitly as state:
each stateful member function returns its boolean result together with the
updated scenario state and the updated planning-context state.
-/

namespace SidePassModel

/-- Overlap kinds of `ReferenceLineInfo` first-encountered overlaps. -/
inductive OverlapType
  | CLEAR_AREA
  | CROSSWALK
  | SIGNAL
  | STOP_SIGN
  | PNC_JUNCTION
  | OBSTACLE
  deriving DecidableEq, Repr

/-- A map overlap on the reference line, with its start station. -/
structure PathOverlap where
  start_s : ℚ
  deriving DecidableEq, Repr

/-- A station-lateral boundary (only the longitudinal components are used). -/
structure SLBoundary where
  start_s : ℚ
  end_s : ℚ
  deriving DecidableEq, Repr

/-- An obstacle: identifier, static flag, perceived SL boundary. -/
structure Obstacle where
  id : String
  is_static : Bool
  perception_sl_boundary : SLBoundary
  deriving DecidableEq, Repr

/-- One reference-line context of the frame: ego boundary, distance to
destination, first-encountered overlaps, and the path-decision obstacle
items scanned by `HasBlockingObstacle`. -/
structure ReferenceLineInfo where
  adc_sl_boundary : SLBoundary
  s_distance_to_destination : ℚ
  first_encountered_overlaps : List (OverlapType × PathOverlap)
  path_decision_obstacles : List Obstacle
  deriving DecidableEq, Repr

/-- The per-cycle planning frame: reference-line contexts plus the frame-level
obstacle table that `Frame::Find` looks up by id. -/
structure Frame where
  reference_line_info : List ReferenceLineInfo
  obstacles : List Obstacle
  deriving DecidableEq, Repr

/-- Frame::Find: look an obstacle up by its id in the frame's obstacle table. -/
def Frame.Find (frame : Frame) (obstacle_id : String) : Option Obstacle :=
  frame.obstacles.find? (fun o => decide (o.id = obstacle_id))

/-- The `side_pass_config()` proto: the tunables read by `HasBlockingObstacle`. -/
structure SidePassConfig where
  block_obstacle_min_speed : ℚ
  min_front_obstacle_distance : ℚ
  enable_obstacle_blocked_check : Bool
  deriving DecidableEq, Repr

/-- The scenario config handed to the constructor (only its side-pass part is
read by this translation unit). -/
structure ScenarioConfig where
  side_pass_config : SidePassConfig
  deriving DecidableEq, Repr

/-- SidePassContext: the maneuver context shared with the stages. -/
structure SidePassContext where
  scenario_config_ : SidePassConfig
  front_blocking_obstacle_id_ : String
  deriving DecidableEq, Repr

/-- The cross-cycle `PlanningContext::GetScenarioInfo()` slot used by this
translation unit. -/
structure PlanningContextState where
  side_pass_front_blocking_obstacle_id : String
  deriving DecidableEq, Repr

/-- The mutable state of a SidePassScenario object: its context and the
diagnostic message `msg_`. -/
structure SidePassScenario where
  side_pass_context_ : SidePassContext
  msg_ : String
  deriving DecidableEq, Repr

/-- Scenario types of `ScenarioConfig::ScenarioType` relevant here. -/
inductive ScenarioType
  | LANE_FOLLOW
  | SIDE_PASS
  | STOP_SIGN_UNPROTECTED
  | TRAFFIC_LIGHT_PROTECTED
  deriving DecidableEq, Repr

/-- Scenario statuses of `Scenario::ScenarioStatus`. -/
inductive ScenarioStatus
  | STATUS_UNKNOWN
  | STATUS_PROCESSING
  | STATUS_DONE
  deriving DecidableEq, Repr

/-- The currently active scenario as `IsTransferable` observes it:
its type and its status. -/
structure Scenario where
  scenario_type : ScenarioType
  status : ScenarioStatus
  deriving DecidableEq, Repr

/-- The external capabilities consumed by this translation unit:
`IsBlockingObstacleToSidePass(frame, obstacle, min_speed, min_front_distance,
enable_check)` and `GetDistanceBetweenADCAndObstacle(frame, obstacle)`. -/
structure Externals where
  IsBlockingObstacleToSidePass : Frame → Obstacle → ℚ → ℚ → Bool → Bool
  GetDistanceBetweenADCAndObstacle : Frame → Obstacle → ℚ

/-- The gflags read by this translation unit. -/
structure Flags where
  side_pass_min_signal_intersection_distance : ℚ
  deriving DecidableEq, Repr

/-- kClearDistance: the clearance distance from intersection/destination. -/
def kClearDistance : ℚ := 15

/-- kSidePassMaxDistance inside `IsTransferable`. -/
def kSidePassMaxDistance : ℚ := 10

/-- SidePassScenario's constructor: copies the side-pass config into the
context and seeds `front_blocking_obstacle_id_` from the cross-cycle
planning-context slot. -/
def SidePassScenario.construct (config : ScenarioConfig) (pc : PlanningContextState) :
    SidePassScenario :=
  { side_pass_context_ :=
      { scenario_config_ := config.side_pass_config
        front_blocking_obstacle_id_ := pc.side_pass_front_blocking_obstacle_id }
    msg_ := "" }

/-- The classifier call of the obstacle loop in `HasBlockingObstacle`, with the
three config tunables filled in. -/
def blocks (ext : Externals) (frame : Frame) (cfg : SidePassConfig) (o : Obstacle) : Bool :=
  ext.IsBlockingObstacleToSidePass frame o cfg.block_obstacle_min_speed
    cfg.min_front_obstacle_distance cfg.enable_obstacle_blocked_check

/-- The loop-carried state of the obstacle scan in `HasBlockingObstacle`:
`distance_to_closest_blocking_obstacle`, `exists_a_blocking_obstacle`, and the
two id slots as written so far (context slot and planning-context slot). -/
structure ScanState where
  dist : ℚ
  found : Bool
  ctx_id : String
  pc_id : String
  deriving DecidableEq, Repr

/-- The obstacle loop of `HasBlockingObstacle`: for each obstacle classified as
blocking, set the found flag, and overwrite the tracked ids whenever
`distance_to_closest_blocking_obstacle < 0.0` or the new distance is strictly
smaller. -/
def scanObstacles (ext : Externals) (frame : Frame) (cfg : SidePassConfig) :
    List Obstacle → ScanState → ScanState
  | [], st => st
  | o :: rest, st =>
    if blocks ext frame cfg o then
      let d := ext.GetDistanceBetweenADCAndObstacle frame o
      if st.dist < 0 ∨ d < st.dist then
        scanObstacles ext frame cfg rest { dist := d, found := true, ctx_id := o.id, pc_id := o.id }
      else
        scanObstacles ext frame cfg rest { st with found := true }
    else
      scanObstacles ext frame cfg rest st

/-- SidePassScenario::HasBlockingObstacle: guard against more than one
reference line, scan the front reference line's path-decision obstacles, and
either keep the closest blocking obstacle's id (in the context and in the
cross-cycle slot) and return true, or clear both ids and return false.
The empty-reference-line case dereferences `front()` in the source (undefined
behaviour); it is unreachable for well-formed frames and mapped to false here. -/
def HasBlockingObstacle (ext : Externals) (s : SidePassScenario)
    (pc : PlanningContextState) (frame : Frame) :
    Bool × SidePassScenario × PlanningContextState :=
  if frame.reference_line_info.length > 1 then
    (false, s, pc)
  else
    match frame.reference_line_info with
    | [] => (false, s, pc)
    | rl :: _ =>
      let st := scanObstacles ext frame s.side_pass_context_.scenario_config_
        rl.path_decision_obstacles
        { dist := -100, found := false,
          ctx_id := s.side_pass_context_.front_blocking_obstacle_id_,
          pc_id := pc.side_pass_front_blocking_obstacle_id }
      if st.found then
        (true,
         { s with side_pass_context_ :=
             { s.side_pass_context_ with front_blocking_obstacle_id_ := st.ctx_id } },
         { side_pass_front_blocking_obstacle_id := st.pc_id })
      else
        (false,
         { s with side_pass_context_ :=
             { s.side_pass_context_ with front_blocking_obstacle_id_ := "" } },
         { side_pass_front_blocking_obstacle_id := "" })

/-- SidePassScenario::IsFarFromDestination: false with more than one reference
line, false when the remaining distance to destination is below
`kClearDistance`, true otherwise.  The empty-reference-line case dereferences
`front()` in the source and is mapped to false here. -/
def IsFarFromDestination (frame : Frame) : Bool :=
  if frame.reference_line_info.length > 1 then
    false
  else
    match frame.reference_line_info with
    | [] => false
    | rl :: _ =>
      if rl.s_distance_to_destination < kClearDistance then false else true

/-- The overlap loop of `IsFarFromIntersection`: skip overlap types other than
clear-area, crosswalk, signal and stop-sign; compare a signal overlap's
distance against the flag threshold and every other relevant overlap's
distance against `kClearDistance`; return false at the first violation. -/
def checkOverlaps (flags : Flags) (adc_end_s : ℚ) :
    List (OverlapType × PathOverlap) → Bool
  | [] => true
  | (t, ov) :: rest =>
    if t ≠ OverlapType.CLEAR_AREA ∧ t ≠ OverlapType.CROSSWALK ∧
        t ≠ OverlapType.SIGNAL ∧ t ≠ OverlapType.STOP_SIGN then
      checkOverlaps flags adc_end_s rest
    else
      let distance := ov.start_s - adc_end_s
      if t = OverlapType.SIGNAL then
        if distance < flags.side_pass_min_signal_intersection_distance then
          false
        else
          checkOverlaps flags adc_end_s rest
      else
        if distance < kClearDistance then
          false
        else
          checkOverlaps flags adc_end_s rest

/-- SidePassScenario::IsFarFromIntersection: false with more than one
reference line, otherwise the overlap scan over the front reference line's
first-encountered overlaps.  The empty-reference-line case dereferences
`front()` in the source and is mapped to false here. -/
def IsFarFromIntersection (flags : Flags) (frame : Frame) : Bool :=
  if frame.reference_line_info.length > 1 then
    false
  else
    match frame.reference_line_info with
    | [] => false
    | rl :: _ =>
      checkOverlaps flags rl.adc_sl_boundary.end_s rl.first_encountered_overlaps

/-- SidePassScenario::IsSidePassScenario: the short-circuit conjunction
`IsFarFromDestination && IsFarFromIntersection && HasBlockingObstacle`;
the stateful last conjunct runs only when the two pure guards hold. -/
def IsSidePassScenario (ext : Externals) (flags : Flags) (s : SidePassScenario)
    (pc : PlanningContextState) (frame : Frame) :
    Bool × SidePassScenario × PlanningContextState :=
  if IsFarFromDestination frame then
    if IsFarFromIntersection flags frame then
      HasBlockingObstacle ext s pc frame
    else
      (false, s, pc)
  else
    (false, s, pc)

/-- SidePassScenario::IsTransferable: the per-cycle transition rule.  Sanity
check on the reference-line count; continuation case when the current scenario
is SIDE_PASS (tracked obstacle must still exist, be static, and be within
`kSidePassMaxDistance`, and the status must not be DONE); false from any other
special scenario; entry evaluation through `IsSidePassScenario` from
LANE_FOLLOW.  The empty-reference-line case in the continuation branch
dereferences `front()` in the source and is mapped to false here. -/
def IsTransferable (ext : Externals) (flags : Flags) (current_scenario : Scenario)
    (s : SidePassScenario) (pc : PlanningContextState) (frame : Frame) :
    Bool × SidePassScenario × PlanningContextState :=
  if frame.reference_line_info.length > 1 then
    (false, s, pc)
  else
    let front_blocking_obstacle_id := pc.side_pass_front_blocking_obstacle_id
    if current_scenario.scenario_type = ScenarioType.SIDE_PASS then
      match frame.Find front_blocking_obstacle_id with
      | none => (false, s, pc)
      | some obs =>
        if obs.is_static = false then
          (false, s, pc)
        else
          match frame.reference_line_info with
          | [] => (false, s, pc)
          | rl :: _ =>
            let ego_front_edge_s := rl.adc_sl_boundary.end_s
            let obstacle_ego_distance :=
              obs.perception_sl_boundary.start_s - ego_front_edge_s
            if obstacle_ego_distance > kSidePassMaxDistance then
              (false, s, pc)
            else
              (if current_scenario.status = ScenarioStatus.STATUS_DONE then false else true,
               { s with msg_ := "side pass obstacle: " ++ front_blocking_obstacle_id },
               pc)
    else if current_scenario.scenario_type ≠ ScenarioType.LANE_FOLLOW then
      (false, s, pc)
    else
      let r := IsSidePassScenario ext flags s pc frame
      if r.1 then
        (true,
         { r.2.1 with msg_ := "side pass obstacle: " ++ front_blocking_obstacle_id },
         r.2.2)
      else
        (false, r.2.1, r.2.2)

/-- Stage types of `ScenarioConfig::StageType` for the side-pass scenario. -/
inductive StageType
  | SIDE_PASS_DEFAULT_STAGE
  | SIDE_PASS_APPROACH_OBSTACLE
  | SIDE_PASS_GENERATE_PATH
  | SIDE_PASS_STOP_ON_WAITPOINT
  | SIDE_PASS_DETECT_SAFETY
  | SIDE_PASS_PASS_OBSTACLE
  | SIDE_PASS_BACKUP
  | NO_STAGE
  deriving DecidableEq, Repr

/-- A printable name for a stage type, used by `StageConfig.DebugString`. -/
def StageType.Name : StageType → String
  | .SIDE_PASS_DEFAULT_STAGE => "SIDE_PASS_DEFAULT_STAGE"
  | .SIDE_PASS_APPROACH_OBSTACLE => "SIDE_PASS_APPROACH_OBSTACLE"
  | .SIDE_PASS_GENERATE_PATH => "SIDE_PASS_GENERATE_PATH"
  | .SIDE_PASS_STOP_ON_WAITPOINT => "SIDE_PASS_STOP_ON_WAITPOINT"
  | .SIDE_PASS_DETECT_SAFETY => "SIDE_PASS_DETECT_SAFETY"
  | .SIDE_PASS_PASS_OBSTACLE => "SIDE_PASS_PASS_OBSTACLE"
  | .SIDE_PASS_BACKUP => "SIDE_PASS_BACKUP"
  | .NO_STAGE => "NO_STAGE"

/-- The `ScenarioConfig::StageConfig` proto: only its stage type is read here. -/
structure StageConfig where
  stage_type : StageType
  deriving DecidableEq, Repr

/-- The proto's DebugString rendering, as logged on stage-creation failure. -/
def StageConfig.DebugString (cfg : StageConfig) : String :=
  "stage_type: " ++ cfg.stage_type.Name

/-- A produced stage object: its config and the context pointer injected by
`SetContext` (modelled as the optional injected context value). -/
structure Stage where
  config : StageConfig
  context : Option SidePassContext
  deriving DecidableEq, Repr

/-- The stage factory `s_stage_factory_`: registered (key, constructor) pairs. -/
abbrev StageFactory := List (StageType × (StageConfig → Stage))

/-- Factory::Empty. -/
def factoryEmpty (f : StageFactory) : Bool :=
  List.isEmpty f

/-- Factory::Register: append one (key, constructor) entry. -/
def factoryRegister (f : StageFactory) (k : StageType) (c : StageConfig → Stage) :
    StageFactory :=
  List.append f [(k, c)]

/-- Factory::CreateObjectOrNull: look the key up and apply its constructor;
an unknown key yields null. -/
def factoryCreateObjectOrNull (f : StageFactory) (k : StageType) (cfg : StageConfig) :
    Option Stage :=
  match List.find? (fun e => decide (e.1 = k)) f with
  | none => none
  | some e => some (e.2 cfg)

/-- SidePassScenario::RegisterStages: if the factory already has entries,
return it unchanged; otherwise register the single default-stage constructor. -/
def RegisterStages (f : StageFactory) : StageFactory :=
  if factoryEmpty f then
    factoryRegister f StageType.SIDE_PASS_DEFAULT_STAGE
      (fun config => { config := config, context := none })
  else
    f

/-- SidePassScenario::CreateStage: register the stages, look the requested
stage type up; on failure log an error containing the config's DebugString and
return null; on success inject the scenario context into the stage.  Returns
the produced stage (or null), the factory state, and the emitted error log. -/
def CreateStage (f : StageFactory) (s : SidePassScenario) (stage_config : StageConfig) :
    Option Stage × StageFactory × List String :=
  let f2 := RegisterStages f
  match factoryCreateObjectOrNull f2 stage_config.stage_type stage_config with
  | none =>
    (none, f2, ["Failed to create stage for config: " ++ stage_config.DebugString])
  | some st =>
    (some { st with context := some s.side_pass_context_ }, f2, [])

/-- Specification-side definition: the first-scanned element attaining the
minimal value of `f` (ties broken in favour of the earlier element), as the
spec's "smallest ego-to-obstacle longitudinal distance, ties broken by scan
order" reads. -/
def firstClosest (f : Obstacle → ℚ) : List Obstacle → Option Obstacle
  | [] => none
  | o :: rest =>
    match firstClosest f rest with
    | none => some o
    | some b => if f b < f o then some b else some o

/-- A running strict minimum with its carried id, used to describe the armed
phase of the obstacle scan. -/
def runMin (f : Obstacle → ℚ) : ℚ → String → List Obstacle → ℚ × String
  | d, c, [] => (d, c)
  | d, c, o :: rest =>
    if f o < d then runMin f (f o) o.id rest else runMin f d c rest

/-- Specification-side definition: the overlap types `IsFarFromIntersection`
does not ignore. -/
def relevantOverlap : OverlapType → Bool
  | .CLEAR_AREA => true
  | .CROSSWALK => true
  | .SIGNAL => true
  | .STOP_SIGN => true
  | _ => false

/-- Specification-side definition: the per-type distance threshold of
`IsFarFromIntersection`. -/
def overlapThreshold (flags : Flags) (t : OverlapType) : ℚ :=
  if t = OverlapType.SIGNAL then flags.side_pass_min_signal_intersection_distance
  else kClearDistance

theorem scanObstacles_skip (ext : Externals) (frame : Frame) (cfg : SidePassConfig)
    (l : List Obstacle) (st : ScanState)
    (h : ∀ o ∈ l, blocks ext frame cfg o = false) :
    scanObstacles ext frame cfg l st = st := by
  induction l generalizing st with
  | nil => rfl
  | cons o rest ih =>
    have ho := h o (List.mem_cons_self o rest)
    simp only [scanObstacles, ho, Bool.false_eq_true, if_false]
    exact ih st (fun x hx => h x (List.mem_cons_of_mem o hx))

theorem scanObstacles_found (ext : Externals) (frame : Frame) (cfg : SidePassConfig)
    (l : List Obstacle) (st : ScanState) :
    (scanObstacles ext frame cfg l st).found =
      (st.found || l.any (fun o => blocks ext frame cfg o)) := by
  induction l generalizing st with
  | nil => simp [scanObstacles]
  | cons o rest ih =>
    by_cases hb : blocks ext frame cfg o
    · simp only [scanObstacles, hb, if_true]
      split
      · rw [ih]; simp [hb]
      · rw [ih]; simp [hb]
    · simp only [scanObstacles, hb, Bool.false_eq_true, if_false]
      rw [ih]; simp [hb]

theorem scanObstacles_ctx_mem (ext : Externals) (frame : Frame) (cfg : SidePassConfig)
    (l : List Obstacle) (st : ScanState) :
    (scanObstacles ext frame cfg l st).ctx_id = st.ctx_id ∨
    ∃ o ∈ l, o.id = (scanObstacles ext frame cfg l st).ctx_id := by
  induction l generalizing st with
  | nil => exact Or.inl rfl
  | cons o rest ih =>
    cases hb : blocks ext frame cfg o with
    | true =>
      simp only [scanObstacles, hb, if_true]
      split
      · rcases ih ⟨ext.GetDistanceBetweenADCAndObstacle frame o, true, o.id, o.id⟩ with
          h | ⟨x, hx, hid⟩
        · exact Or.inr ⟨o, List.mem_cons_self o rest, h.symm⟩
        · exact Or.inr ⟨x, List.mem_cons_of_mem o hx, hid⟩
      · rcases ih ⟨st.dist, true, st.ctx_id, st.pc_id⟩ with h | ⟨x, hx, hid⟩
        · exact Or.inl h
        · exact Or.inr ⟨x, List.mem_cons_of_mem o hx, hid⟩
    | false =>
      simp only [scanObstacles, hb, Bool.false_eq_true, if_false]
      rcases ih st with h | ⟨x, hx, hid⟩
      · exact Or.inl h
      · exact Or.inr ⟨x, List.mem_cons_of_mem o hx, hid⟩

theorem scanObstacles_found_mem (ext : Externals) (frame : Frame) (cfg : SidePassConfig)
    (l : List Obstacle) (st : ScanState)
    (hdist : st.dist < 0) (hfound : st.found = false)
    (h : (scanObstacles ext frame cfg l st).found = true) :
    ∃ o ∈ l, o.id = (scanObstacles ext frame cfg l st).ctx_id := by
  induction l generalizing st with
  | nil =>
    simp only [scanObstacles] at h
    rw [hfound] at h
    exact absurd h (by simp)
  | cons o rest ih =>
    cases hb : blocks ext frame cfg o with
    | true =>
      have hcond : st.dist < 0 ∨ ext.GetDistanceBetweenADCAndObstacle frame o < st.dist :=
        Or.inl hdist
      simp only [scanObstacles, hb, if_true, if_pos hcond] at h ⊢
      rcases scanObstacles_ctx_mem ext frame cfg rest
          ⟨ext.GetDistanceBetweenADCAndObstacle frame o, true, o.id, o.id⟩ with
        hc | ⟨x, hx, hid⟩
      · exact ⟨o, List.mem_cons_self o rest, hc.symm⟩
      · exact ⟨x, List.mem_cons_of_mem o hx, hid⟩
    | false =>
      simp only [scanObstacles, hb, Bool.false_eq_true, if_false] at h ⊢
      rcases ih st hdist hfound h with ⟨x, hx, hid⟩
      exact ⟨x, List.mem_cons_of_mem o hx, hid⟩

theorem runMin_eq_firstClosest (f : Obstacle → ℚ) (l : List Obstacle) :
    ∀ (d : ℚ) (c : String),
      runMin f d c l =
        (firstClosest f l).elim (d, c)
          (fun b => if f b < d then (f b, b.id) else (d, c)) := by
  induction l with
  | nil => intro d c; rfl
  | cons o rest ih =>
    intro d c
    cases hfc : firstClosest f rest with
    | none =>
      simp only [runMin, firstClosest, hfc, ih, Option.elim]
    | some b =>
      simp only [runMin, firstClosest, hfc, ih]
      by_cases hbo : f b < f o
      · by_cases hod : f o < d
        · simp [hbo, hod, lt_trans hbo hod]
        · simp [hbo, hod]
      · have hob : f o ≤ f b := not_lt.mp hbo
        by_cases hod : f o < d
        · simp [hbo, hod]
        · have hbd : ¬ f b < d := fun hb => hod (lt_of_le_of_lt hob hb)
          simp [hbo, hod, hbd]

theorem scanObstacles_armed (ext : Externals) (frame : Frame) (cfg : SidePassConfig)
    (l : List Obstacle) :
    ∀ (d : ℚ) (c : String), 0 ≤ d →
    (∀ o ∈ l, blocks ext frame cfg o = true →
      0 ≤ ext.GetDistanceBetweenADCAndObstacle frame o) →
    scanObstacles ext frame cfg l ⟨d, true, c, c⟩ =
      ⟨(runMin (ext.GetDistanceBetweenADCAndObstacle frame) d c
          (l.filter (fun o => blocks ext frame cfg o))).1, true,
       (runMin (ext.GetDistanceBetweenADCAndObstacle frame) d c
          (l.filter (fun o => blocks ext frame cfg o))).2,
       (runMin (ext.GetDistanceBetweenADCAndObstacle frame) d c
          (l.filter (fun o => blocks ext frame cfg o))).2⟩ := by
  induction l with
  | nil => intro d c _ _; rfl
  | cons o rest ih =>
    intro d c hd hnn
    have hrest : ∀ x ∈ rest, blocks ext frame cfg x = true →
        0 ≤ ext.GetDistanceBetweenADCAndObstacle frame x :=
      fun x hx => hnn x (List.mem_cons_of_mem o hx)
    cases hb : blocks ext frame cfg o with
    | true =>
      have h0 : 0 ≤ ext.GetDistanceBetweenADCAndObstacle frame o :=
        hnn o (List.mem_cons_self o rest) hb
      simp only [scanObstacles, hb, if_true, List.filter_cons, if_pos hb]
      by_cases hlt : ext.GetDistanceBetweenADCAndObstacle frame o < d
      · rw [if_pos (Or.inr hlt), ih (ext.GetDistanceBetweenADCAndObstacle frame o) o.id h0 hrest,
          runMin, if_pos hlt]
      · rw [if_neg (by push_neg; exact ⟨hd, not_lt.mp hlt⟩), runMin, if_neg hlt]
        exact ih d c hd hrest
    | false =>
      simp only [scanObstacles, hb, Bool.false_eq_true, if_false, List.filter_cons, if_neg]
      exact ih d c hd hrest

theorem scanObstacles_start (ext : Externals) (frame : Frame) (cfg : SidePassConfig)
    (l : List Obstacle) :
    ∀ (st : ScanState), st.dist < 0 →
    (∀ o ∈ l, blocks ext frame cfg o = true →
      0 ≤ ext.GetDistanceBetweenADCAndObstacle frame o) →
    ∀ (b : Obstacle) (bs : List Obstacle),
      l.filter (fun o => blocks ext frame cfg o) = b :: bs →
    scanObstacles ext frame cfg l st =
      ⟨(runMin (ext.GetDistanceBetweenADCAndObstacle frame)
          (ext.GetDistanceBetweenADCAndObstacle frame b) b.id bs).1, true,
       (runMin (ext.GetDistanceBetweenADCAndObstacle frame)
          (ext.GetDistanceBetweenADCAndObstacle frame b) b.id bs).2,
       (runMin (ext.GetDistanceBetweenADCAndObstacle frame)
          (ext.GetDistanceBetweenADCAndObstacle frame b) b.id bs).2⟩ := by
  induction l with
  | nil => intro st _ _ b bs hfil; simp at hfil
  | cons o rest ih =>
    intro st hdist hnn b bs hfil
    have hrest : ∀ x ∈ rest, blocks ext frame cfg x = true →
        0 ≤ ext.GetDistanceBetweenADCAndObstacle frame x :=
      fun x hx => hnn x (List.mem_cons_of_mem o hx)
    cases hb : blocks ext frame cfg o with
    | true =>
      rw [List.filter_cons, if_pos hb] at hfil
      obtain ⟨rfl, rfl⟩ : o = b ∧ rest.filter (fun o => blocks ext frame cfg o) = bs := by
        simpa using hfil
      have h0 : 0 ≤ ext.GetDistanceBetweenADCAndObstacle frame o :=
        hnn o (List.mem_cons_self o rest) hb
      simp only [scanObstacles, hb, if_true, if_pos (Or.inl hdist)]
      exact scanObstacles_armed ext frame cfg rest
        (ext.GetDistanceBetweenADCAndObstacle frame o) o.id h0 hrest
    | false =>
      rw [List.filter_cons, if_neg (by simp [hb])] at hfil
      simp only [scanObstacles, hb, Bool.false_eq_true, if_false]
      exact ih st hdist hrest b bs hfil

theorem checkOverlaps_true_iff (flags : Flags) (adc_end_s : ℚ) :
    ∀ l : List (OverlapType × PathOverlap),
      checkOverlaps flags adc_end_s l = true ↔
        ∀ p ∈ l, relevantOverlap p.1 = true →
          overlapThreshold flags p.1 ≤ p.2.start_s - adc_end_s := by
  intro l
  induction l with
  | nil => simp [checkOverlaps]
  | cons p rest ih =>
    obtain ⟨t, ov⟩ := p
    by_cases hrel : relevantOverlap t = true
    · have hskip : ¬(t ≠ OverlapType.CLEAR_AREA ∧ t ≠ OverlapType.CROSSWALK ∧
          t ≠ OverlapType.SIGNAL ∧ t ≠ OverlapType.STOP_SIGN) := by
        cases t <;> simp_all [relevantOverlap]
      by_cases hsig : t = OverlapType.SIGNAL
      · subst hsig
        by_cases hd : ov.start_s - adc_end_s <
            flags.side_pass_min_signal_intersection_distance
        · simp only [checkOverlaps, if_neg hskip, eq_self_iff_true, if_true, if_pos hd]
          constructor
          · intro hfalse; exact absurd hfalse (by simp)
          · intro hall
            have hthis := hall (OverlapType.SIGNAL, ov) (List.mem_cons_self _ _) hrel
            simp only [overlapThreshold, if_pos rfl] at hthis
            exact absurd hthis (not_le.mpr hd)
        · simp only [checkOverlaps, if_neg hskip, eq_self_iff_true, if_true, if_neg hd]
          rw [ih]
          constructor
          · intro hall p hp hrelp
            rcases List.mem_cons.mp hp with rfl | hp'
            · simp only [overlapThreshold, if_pos rfl]
              exact not_lt.mp hd
            · exact hall p hp' hrelp
          · intro hall p hp hrelp
            exact hall p (List.mem_cons_of_mem _ hp) hrelp
      · by_cases hd : ov.start_s - adc_end_s < kClearDistance
        · simp only [checkOverlaps, if_neg hskip, if_neg hsig, if_pos hd]
          constructor
          · intro hfalse; exact absurd hfalse (by simp)
          · intro hall
            have hthis := hall (t, ov) (List.mem_cons_self _ _) hrel
            simp only [overlapThreshold, if_neg hsig] at hthis
            exact absurd hthis (not_le.mpr hd)
        · simp only [checkOverlaps, if_neg hskip, if_neg hsig, if_neg hd]
          rw [ih]
          constructor
          · intro hall p hp hrelp
            rcases List.mem_cons.mp hp with rfl | hp'
            · simp only [overlapThreshold, if_neg hsig]
              exact not_lt.mp hd
            · exact hall p hp' hrelp
          · intro hall p hp hrelp
            exact hall p (List.mem_cons_of_mem _ hp) hrelp
    · have hskip : t ≠ OverlapType.CLEAR_AREA ∧ t ≠ OverlapType.CROSSWALK ∧
          t ≠ OverlapType.SIGNAL ∧ t ≠ OverlapType.STOP_SIGN := by
        cases t <;> simp_all [relevantOverlap]
      simp only [checkOverlaps, if_pos hskip]
      rw [ih]
      constructor
      · intro hall p hp hrelp
        rcases List.mem_cons.mp hp with rfl | hp'
        · exact absurd hrelp hrel
        · exact hall p hp' hrelp
      · intro hall p hp hrelp
        exact hall p (List.mem_cons_of_mem _ hp) hrelp

theorem hasBlockingObstacle_single (ext : Externals) (s : SidePassScenario)
    (pc : PlanningContextState) (frame : Frame) (rl : ReferenceLineInfo)
    (h1 : frame.reference_line_info = [rl]) :
    HasBlockingObstacle ext s pc frame =
      (if (scanObstacles ext frame s.side_pass_context_.scenario_config_
            rl.path_decision_obstacles
            ⟨-100, false, s.side_pass_context_.front_blocking_obstacle_id_,
              pc.side_pass_front_blocking_obstacle_id⟩).found then
        (true,
         { s with side_pass_context_ :=
             { s.side_pass_context_ with front_blocking_obstacle_id_ :=
                 (scanObstacles ext frame s.side_pass_context_.scenario_config_
                   rl.path_decision_obstacles
                   ⟨-100, false, s.side_pass_context_.front_blocking_obstacle_id_,
                     pc.side_pass_front_blocking_obstacle_id⟩).ctx_id } },
         { side_pass_front_blocking_obstacle_id :=
             (scanObstacles ext frame s.side_pass_context_.scenario_config_
               rl.path_decision_obstacles
               ⟨-100, false, s.side_pass_context_.front_blocking_obstacle_id_,
                 pc.side_pass_front_blocking_obstacle_id⟩).pc_id })
      else
        (false,
         { s with side_pass_context_ :=
             { s.side_pass_context_ with front_blocking_obstacle_id_ := "" } },
         { side_pass_front_blocking_obstacle_id := "" })) := by
  unfold HasBlockingObstacle
  rw [h1]
  rfl

theorem isTransferable_state_change (ext : Externals) (flags : Flags)
    (current_scenario : Scenario) (s : SidePassScenario) (pc : PlanningContextState)
    (frame : Frame) :
    ((IsTransferable ext flags current_scenario s pc
          frame).2.1.side_pass_context_.front_blocking_obstacle_id_ =
        s.side_pass_context_.front_blocking_obstacle_id_ ∧
      (IsTransferable ext flags current_scenario s pc frame).2.2 = pc) ∨
    ((IsTransferable ext flags current_scenario s pc
          frame).2.1.side_pass_context_.front_blocking_obstacle_id_ =
        (HasBlockingObstacle ext s pc
          frame).2.1.side_pass_context_.front_blocking_obstacle_id_ ∧
      (IsTransferable ext flags current_scenario s pc frame).2.2 =
        (HasBlockingObstacle ext s pc frame).2.2) := by
  unfold IsTransferable IsSidePassScenario
  dsimp only
  repeat' first
  | exact Or.inl ⟨rfl, rfl⟩
  | exact Or.inr ⟨rfl, rfl⟩
  | split

/-- Sample configuration used by the concrete instantiations below. -/
def sampleConfig : SidePassConfig :=
  { block_obstacle_min_speed := 1/2
    min_front_obstacle_distance := 5
    enable_obstacle_blocked_check := true }

/-- Sample scenario state with an empty tracked id. -/
def sampleScn : SidePassScenario :=
  { side_pass_context_ :=
      { scenario_config_ := sampleConfig, front_blocking_obstacle_id_ := "" }
    msg_ := "" }

/-- Sample cross-cycle state with an empty tracked id. -/
def samplePc : PlanningContextState := { side_pass_front_blocking_obstacle_id := "" }

/-- Sample static obstacle whose perceived boundary starts 8 ahead of the ego end. -/
def obsGap8 : Obstacle :=
  { id := "obs8", is_static := true, perception_sl_boundary := ⟨8, 12⟩ }

/-- Sample static obstacle whose perceived boundary starts 3 ahead of the ego end. -/
def obsGap3 : Obstacle :=
  { id := "obs3", is_static := true, perception_sl_boundary := ⟨3, 6⟩ }

/-- Sample single reference line with the two obstacles above, far from the
destination and with no overlaps. -/
def sampleRl : ReferenceLineInfo :=
  { adc_sl_boundary := ⟨-5, 0⟩
    s_distance_to_destination := 20
    first_encountered_overlaps := []
    path_decision_obstacles := [obsGap8, obsGap3] }

/-- Sample single-reference-line frame. -/
def sampleFrame : Frame :=
  { reference_line_info := [sampleRl], obstacles := [obsGap8, obsGap3] }

/-- Sample frame with two reference lines (ambiguous topology). -/
def twoLineFrame : Frame :=
  { reference_line_info := [sampleRl, sampleRl], obstacles := [] }

/-- Sample externals: every obstacle classifies as blocking, and the
ego-obstacle distance is the obstacle's perceived start station. -/
def sampleExt : Externals :=
  { IsBlockingObstacleToSidePass := fun _ _ _ _ _ => true
    GetDistanceBetweenADCAndObstacle := fun _ o => o.perception_sl_boundary.start_s }

/-- Sample gflags. -/
def sampleFlags : Flags := { side_pass_min_signal_intersection_distance := 100 }

/-- A currently-active SIDE_PASS scenario that is still in progress. -/
def curSidePass : Scenario :=
  ⟨ScenarioType.SIDE_PASS, ScenarioStatus.STATUS_PROCESSING⟩

/-- A currently-active LANE_FOLLOW scenario. -/
def curLaneFollow : Scenario :=
  ⟨ScenarioType.LANE_FOLLOW, ScenarioStatus.STATUS_PROCESSING⟩

/-- C4: for every snapshot with more than one reference line,
`IsTransferable`, `IsFarFromDestination`, `IsFarFromIntersection` and
`HasBlockingObstacle` all return false, regardless of any other snapshot
content or scenario state. -/
theorem multi_line_all_false (ext : Externals) (flags : Flags)
    (current_scenario : Scenario) (s : SidePassScenario) (pc : PlanningContextState)
    (frame : Frame) (h : frame.reference_line_info.length > 1) :
    (IsTransferable ext flags current_scenario s pc frame).1 = false ∧
    IsFarFromDestination frame = false ∧
    IsFarFromIntersection flags frame = false ∧
    (HasBlockingObstacle ext s pc frame).1 = false := by
  refine ⟨?_, ?_, ?_, ?_⟩ <;>
    simp only [IsTransferable, IsFarFromDestination, IsFarFromIntersection,
      HasBlockingObstacle, if_pos h]

/-- C4 witness: the four predicates at a concrete two-reference-line frame. -/
theorem multi_line_all_false_witness :
    twoLineFrame.reference_line_info.length > 1 ∧
    ((IsTransferable sampleExt sampleFlags curLaneFollow sampleScn samplePc
        twoLineFrame).1 = false ∧
     IsFarFromDestination twoLineFrame = false ∧
     IsFarFromIntersection sampleFlags twoLineFrame = false ∧
     (HasBlockingObstacle sampleExt sampleScn samplePc twoLineFrame).1 = false) :=
  ⟨by decide, multi_line_all_false sampleExt sampleFlags curLaneFollow sampleScn
    samplePc twoLineFrame (by decide)⟩

/-- Scenario state carrying a tracked id persisted from a previous cycle. -/
def staleScn : SidePassScenario :=
  { side_pass_context_ :=
      { scenario_config_ := sampleConfig, front_blocking_obstacle_id_ := "persisted" }
    msg_ := "" }

/-- Cross-cycle state carrying a tracked id persisted from a previous cycle. -/
def stalePc : PlanningContextState :=
  { side_pass_front_blocking_obstacle_id := "persisted" }

/-- C10: with more than one reference line, `HasBlockingObstacle` returns
false and leaves the whole state — in particular the tracked
blocking-obstacle id in the context and in the cross-cycle slot — unchanged:
the early return precedes every write, so a persisted id survives even though
nothing was classified as blocking. -/
theorem hasBlockingObstacle_multi_line_frame (ext : Externals)
    (s : SidePassScenario) (pc : PlanningContextState) (frame : Frame)
    (h : frame.reference_line_info.length > 1) :
    HasBlockingObstacle ext s pc frame = (false, s, pc) := by
  simp only [HasBlockingObstacle, if_pos h]

/-- C10 witness: a persisted id survives a two-reference-line call unchanged. -/
theorem hasBlockingObstacle_multi_line_frame_witness :
    twoLineFrame.reference_line_info.length > 1 ∧
    HasBlockingObstacle sampleExt staleScn stalePc twoLineFrame =
      (false, staleScn, stalePc) :=
  ⟨by decide, hasBlockingObstacle_multi_line_frame sampleExt staleScn stalePc
    twoLineFrame (by decide)⟩

/-- C5: in the continuation case, `IsTransferable` returns false when the
tracked id is absent from the frame's obstacle registry, and returns false
when the tracked obstacle is present but no longer static, regardless of its
distance. -/
theorem isTransferable_continuation_stale (ext : Externals) (flags : Flags)
    (current_scenario : Scenario) (s : SidePassScenario) (pc : PlanningContextState)
    (frame : Frame)
    (h1 : current_scenario.scenario_type = ScenarioType.SIDE_PASS)
    (h2 : frame.reference_line_info.length = 1) :
    (frame.Find pc.side_pass_front_blocking_obstacle_id = none →
      (IsTransferable ext flags current_scenario s pc frame).1 = false) ∧
    (∀ obs : Obstacle,
      frame.Find pc.side_pass_front_blocking_obstacle_id = some obs →
      obs.is_static = false →
      (IsTransferable ext flags current_scenario s pc frame).1 = false) := by
  have hn : ¬ frame.reference_line_info.length > 1 := by omega
  constructor
  · intro hfind
    simp only [IsTransferable, if_neg hn, h1, eq_self_iff_true, if_true, hfind]
  · intro obs hfind hstatic
    simp only [IsTransferable, if_neg hn, h1, eq_self_iff_true, if_true, hfind,
      hstatic, if_false]

/-- Cross-cycle state whose tracked id names an obstacle absent from the
sample frame. -/
def gonePc : PlanningContextState := { side_pass_front_blocking_obstacle_id := "gone" }

/-- C5 witness: vanished tracked obstacle at a concrete frame. -/
theorem isTransferable_continuation_stale_witness :
    curSidePass.scenario_type = ScenarioType.SIDE_PASS ∧
    sampleFrame.reference_line_info.length = 1 ∧
    sampleFrame.Find gonePc.side_pass_front_blocking_obstacle_id = none ∧
    (IsTransferable sampleExt sampleFlags curSidePass sampleScn gonePc
      sampleFrame).1 = false :=
  ⟨rfl, rfl, by decide,
   (isTransferable_continuation_stale sampleExt sampleFlags curSidePass sampleScn
     gonePc sampleFrame rfl rfl).1 (by decide)⟩

/-- C2 (amended): in the continuation case with the tracked obstacle present
and static, a gap of exactly 10.0 yields true provided the current scenario's
status is not DONE, and any gap strictly above 10.0 yields false. -/
theorem isTransferable_continuation_gap (ext : Externals) (flags : Flags)
    (current_scenario : Scenario) (s : SidePassScenario) (pc : PlanningContextState)
    (frame : Frame) (rl : ReferenceLineInfo) (obs : Obstacle)
    (h1 : current_scenario.scenario_type = ScenarioType.SIDE_PASS)
    (h2 : frame.reference_line_info = [rl])
    (h3 : frame.Find pc.side_pass_front_blocking_obstacle_id = some obs)
    (h4 : obs.is_static = true) :
    (obs.perception_sl_boundary.start_s - rl.adc_sl_boundary.end_s = 10 →
      current_scenario.status ≠ ScenarioStatus.STATUS_DONE →
      (IsTransferable ext flags current_scenario s pc frame).1 = true) ∧
    (obs.perception_sl_boundary.start_s - rl.adc_sl_boundary.end_s > 10 →
      (IsTransferable ext flags current_scenario s pc frame).1 = false) := by
  constructor
  · intro hgap hdone
    simp [IsTransferable, h1, h2, h3, h4, hgap, kSidePassMaxDistance, hdone]
  · intro hgap
    simp [IsTransferable, h1, h2, h3, h4, kSidePassMaxDistance, hgap]

/-- Static obstacle whose perceived boundary starts exactly 10 ahead of the
sample ego end station 0. -/
def obsGap10 : Obstacle :=
  { id := "front", is_static := true, perception_sl_boundary := ⟨10, 14⟩ }

/-- Single reference line whose ego boundary ends at station 0. -/
def rlZero : ReferenceLineInfo :=
  { adc_sl_boundary := ⟨-5, 0⟩
    s_distance_to_destination := 20
    first_encountered_overlaps := []
    path_decision_obstacles := [obsGap10] }

/-- Frame holding only the gap-10 obstacle. -/
def frameGap10 : Frame := { reference_line_info := [rlZero], obstacles := [obsGap10] }

/-- Cross-cycle state tracking the gap-10 obstacle. -/
def pcFront : PlanningContextState := { side_pass_front_blocking_obstacle_id := "front" }

/-- C2 witness: gap exactly 10 with status PROCESSING yields true. -/
theorem isTransferable_continuation_gap_witness :
    curSidePass.scenario_type = ScenarioType.SIDE_PASS ∧
    frameGap10.reference_line_info = [rlZero] ∧
    frameGap10.Find pcFront.side_pass_front_blocking_obstacle_id = some obsGap10 ∧
    obsGap10.is_static = true ∧
    obsGap10.perception_sl_boundary.start_s - rlZero.adc_sl_boundary.end_s = 10 ∧
    curSidePass.status ≠ ScenarioStatus.STATUS_DONE ∧
    (IsTransferable sampleExt sampleFlags curSidePass sampleScn pcFront
      frameGap10).1 = true :=
  ⟨rfl, rfl, by decide, rfl, by norm_num [obsGap10, rlZero], by decide,
   (isTransferable_continuation_gap sampleExt sampleFlags curSidePass sampleScn
     pcFront frameGap10 rlZero obsGap10 rfl rfl (by decide) rfl).1
     (by norm_num [obsGap10, rlZero]) (by decide)⟩

/-- A currently-active SIDE_PASS scenario whose status is DONE. -/
def curDone : Scenario := ⟨ScenarioType.SIDE_PASS, ScenarioStatus.STATUS_DONE⟩

/-- C2 counterexample: at gap exactly 10.0 in the continuation case (tracked
obstacle present and static, single reference line), IsTransferable returns
false when the current scenario's status is DONE, although the claim asserts
that a gap of exactly 10.0 yields true. -/
theorem isTransferable_gap10_done_cex :
    curDone.scenario_type = ScenarioType.SIDE_PASS ∧
    frameGap10.reference_line_info = [rlZero] ∧
    frameGap10.Find pcFront.side_pass_front_blocking_obstacle_id = some obsGap10 ∧
    obsGap10.is_static = true ∧
    obsGap10.perception_sl_boundary.start_s - rlZero.adc_sl_boundary.end_s = 10 ∧
    (IsTransferable sampleExt sampleFlags curDone sampleScn pcFront
      frameGap10).1 = false := by
  have h3 : frameGap10.Find pcFront.side_pass_front_blocking_obstacle_id =
      some obsGap10 := by decide
  refine ⟨rfl, rfl, h3, rfl, by norm_num [obsGap10, rlZero], ?_⟩
  norm_num [IsTransferable, frameGap10, curDone, obsGap10, rlZero,
    kSidePassMaxDistance]
  split
  · rfl
  · split
    · rfl
    · split
      · rfl
      · rfl

/-- C6: in the entry case (currently LANE_FOLLOW, single reference line), if
`IsFarFromDestination` is false then `IsTransferable` returns false with the
whole state unchanged (the short-circuit never reaches `HasBlockingObstacle`);
moreover, on every input, `IsTransferable` either leaves the tracked id and
the cross-cycle slot unchanged or produces exactly the values written by
`HasBlockingObstacle` — the tracked id is only ever mutated inside it. -/
theorem isTransferable_entry_blocked (ext : Externals) (flags : Flags)
    (current_scenario : Scenario) (s : SidePassScenario) (pc : PlanningContextState)
    (frame : Frame)
    (h1 : current_scenario.scenario_type = ScenarioType.LANE_FOLLOW)
    (h2 : frame.reference_line_info.length = 1)
    (h3 : IsFarFromDestination frame = false) :
    IsTransferable ext flags current_scenario s pc frame = (false, s, pc) ∧
    ∀ (cur2 : Scenario) (s2 : SidePassScenario) (pc2 : PlanningContextState)
      (fr2 : Frame),
      ((IsTransferable ext flags cur2 s2 pc2
            fr2).2.1.side_pass_context_.front_blocking_obstacle_id_ =
          s2.side_pass_context_.front_blocking_obstacle_id_ ∧
        (IsTransferable ext flags cur2 s2 pc2 fr2).2.2 = pc2) ∨
      ((IsTransferable ext flags cur2 s2 pc2
            fr2).2.1.side_pass_context_.front_blocking_obstacle_id_ =
          (HasBlockingObstacle ext s2 pc2
            fr2).2.1.side_pass_context_.front_blocking_obstacle_id_ ∧
        (IsTransferable ext flags cur2 s2 pc2 fr2).2.2 =
          (HasBlockingObstacle ext s2 pc2 fr2).2.2) := by
  have hn : ¬ frame.reference_line_info.length > 1 := by omega
  constructor
  · simp [IsTransferable, IsSidePassScenario, hn, h1, h3]
  · intro cur2 s2 pc2 fr2
    exact isTransferable_state_change ext flags cur2 s2 pc2 fr2

/-- Single reference line too close to the destination (10 < 15). -/
def nearRl : ReferenceLineInfo :=
  { adc_sl_boundary := ⟨-5, 0⟩
    s_distance_to_destination := 10
    first_encountered_overlaps := []
    path_decision_obstacles := [obsGap3] }

/-- Frame whose single reference line is too close to the destination. -/
def nearFrame : Frame := { reference_line_info := [nearRl], obstacles := [obsGap3] }

/-- C6 witness: entry evaluation blocked by the destination check at a
concrete frame, with the cross-cycle tracked id left untouched. -/
theorem isTransferable_entry_blocked_witness :
    curLaneFollow.scenario_type = ScenarioType.LANE_FOLLOW ∧
    nearFrame.reference_line_info.length = 1 ∧
    IsFarFromDestination nearFrame = false ∧
    IsTransferable sampleExt sampleFlags curLaneFollow staleScn stalePc nearFrame =
      (false, staleScn, stalePc) :=
  ⟨rfl, rfl, by decide,
   (isTransferable_entry_blocked sampleExt sampleFlags curLaneFollow staleScn
     stalePc nearFrame rfl rfl (by decide)).1⟩

/-- C7: with exactly one reference line, `IsFarFromIntersection` returns true
exactly when every relevant overlap (clear-area, crosswalk, signal, stop-sign;
all other types are ignored) has `overlap.start - ego.end` at or above its
threshold — the configured signal distance for signal overlaps,
`kClearDistance` for the rest; equivalently it returns false exactly when some
relevant overlap violates its threshold. -/
theorem isFarFromIntersection_characterization (flags : Flags) (frame : Frame)
    (rl : ReferenceLineInfo) (h1 : frame.reference_line_info = [rl]) :
    IsFarFromIntersection flags frame = true ↔
      ∀ p ∈ rl.first_encountered_overlaps, relevantOverlap p.1 = true →
        overlapThreshold flags p.1 ≤ p.2.start_s - rl.adc_sl_boundary.end_s := by
  have hval : IsFarFromIntersection flags frame =
      checkOverlaps flags rl.adc_sl_boundary.end_s rl.first_encountered_overlaps := by
    unfold IsFarFromIntersection
    rw [h1]
    rfl
  rw [hval]
  exact checkOverlaps_true_iff flags rl.adc_sl_boundary.end_s
    rl.first_encountered_overlaps

/-- Reference line with a far crosswalk, a near junction (ignored type) and a
far signal. -/
def ovRl : ReferenceLineInfo :=
  { adc_sl_boundary := ⟨-5, 0⟩
    s_distance_to_destination := 20
    first_encountered_overlaps :=
      [(OverlapType.CROSSWALK, ⟨20⟩), (OverlapType.PNC_JUNCTION, ⟨1⟩),
       (OverlapType.SIGNAL, ⟨150⟩)]
    path_decision_obstacles := [] }

/-- Frame for the overlap characterization witness. -/
def ovFrame : Frame := { reference_line_info := [ovRl], obstacles := [] }

/-- C7 witness: the characterization at a concrete overlap list. -/
theorem isFarFromIntersection_characterization_witness :
    ovFrame.reference_line_info = [ovRl] ∧
    (IsFarFromIntersection sampleFlags ovFrame = true ↔
      ∀ p ∈ ovRl.first_encountered_overlaps, relevantOverlap p.1 = true →
        overlapThreshold sampleFlags p.1 ≤ p.2.start_s - ovRl.adc_sl_boundary.end_s) :=
  ⟨rfl, isFarFromIntersection_characterization sampleFlags ovFrame ovRl rfl⟩

/-- C8: with exactly one reference line, if no obstacle classifies as
blocking then `HasBlockingObstacle` clears the tracked id in both the context
and the cross-cycle slot and returns false; if some obstacle classifies as
blocking it returns true. -/
theorem hasBlockingObstacle_clear_or_found (ext : Externals) (s : SidePassScenario)
    (pc : PlanningContextState) (frame : Frame) (rl : ReferenceLineInfo)
    (h1 : frame.reference_line_info = [rl]) :
    ((∀ o ∈ rl.path_decision_obstacles,
        blocks ext frame s.side_pass_context_.scenario_config_ o = false) →
      HasBlockingObstacle ext s pc frame =
        (false,
         { s with side_pass_context_ :=
             { s.side_pass_context_ with front_blocking_obstacle_id_ := "" } },
         { side_pass_front_blocking_obstacle_id := "" })) ∧
    ((∃ o ∈ rl.path_decision_obstacles,
        blocks ext frame s.side_pass_context_.scenario_config_ o = true) →
      (HasBlockingObstacle ext s pc frame).1 = true) := by
  rw [hasBlockingObstacle_single ext s pc frame rl h1]
  constructor
  · intro hnone
    rw [scanObstacles_skip ext frame s.side_pass_context_.scenario_config_
      rl.path_decision_obstacles _ hnone]
    rfl
  · rintro ⟨o, ho, hbo⟩
    have hfound : (scanObstacles ext frame s.side_pass_context_.scenario_config_
        rl.path_decision_obstacles
        ⟨-100, false, s.side_pass_context_.front_blocking_obstacle_id_,
          pc.side_pass_front_blocking_obstacle_id⟩).found = true := by
      rw [scanObstacles_found]
      simp only [Bool.false_or]
      exact List.any_eq_true.mpr ⟨o, ho, hbo⟩
    rw [if_pos hfound]

/-- Externals under which no obstacle classifies as blocking. -/
def noneExt : Externals :=
  { IsBlockingObstacleToSidePass := fun _ _ _ _ _ => false
    GetDistanceBetweenADCAndObstacle := fun _ o => o.perception_sl_boundary.start_s }

/-- C8 witness: both halves at concrete frames — a persisted id is cleared
when nothing blocks, and a blocking obstacle yields true. -/
theorem hasBlockingObstacle_clear_or_found_witness :
    (∀ o ∈ sampleRl.path_decision_obstacles,
      blocks noneExt sampleFrame staleScn.side_pass_context_.scenario_config_ o = false) ∧
    HasBlockingObstacle noneExt staleScn stalePc sampleFrame =
      (false,
       { staleScn with side_pass_context_ :=
           { staleScn.side_pass_context_ with front_blocking_obstacle_id_ := "" } },
       { side_pass_front_blocking_obstacle_id := "" }) ∧
    (∃ o ∈ sampleRl.path_decision_obstacles,
      blocks sampleExt sampleFrame sampleScn.side_pass_context_.scenario_config_ o = true) ∧
    (HasBlockingObstacle sampleExt sampleScn samplePc sampleFrame).1 = true :=
  ⟨by decide,
   (hasBlockingObstacle_clear_or_found noneExt staleScn stalePc sampleFrame
     sampleRl rfl).1 (by decide),
   by decide,
   (hasBlockingObstacle_clear_or_found sampleExt sampleScn samplePc sampleFrame
     sampleRl rfl).2 (by decide)⟩

/-- C3 (amended): after `HasBlockingObstacle` runs on a snapshot with exactly
one reference line, the tracked id in the context is either empty or names an
obstacle present in that snapshot's obstacle registry.  (The claim's full
invariant fails after construction and after `IsTransferable` calls that never
reach `HasBlockingObstacle`, where a stale persisted id survives.) -/
theorem hasBlockingObstacle_id_in_registry (ext : Externals) (s : SidePassScenario)
    (pc : PlanningContextState) (frame : Frame) (rl : ReferenceLineInfo)
    (h1 : frame.reference_line_info = [rl]) :
    (HasBlockingObstacle ext s pc
        frame).2.1.side_pass_context_.front_blocking_obstacle_id_ = "" ∨
    ∃ o ∈ rl.path_decision_obstacles,
      o.id = (HasBlockingObstacle ext s pc
        frame).2.1.side_pass_context_.front_blocking_obstacle_id_ := by
  rw [hasBlockingObstacle_single ext s pc frame rl h1]
  cases hf : (scanObstacles ext frame s.side_pass_context_.scenario_config_
      rl.path_decision_obstacles
      ⟨-100, false, s.side_pass_context_.front_blocking_obstacle_id_,
        pc.side_pass_front_blocking_obstacle_id⟩).found with
  | false =>
    left
    rfl
  | true =>
    right
    have hmem := scanObstacles_found_mem ext frame s.side_pass_context_.scenario_config_
      rl.path_decision_obstacles
      ⟨-100, false, s.side_pass_context_.front_blocking_obstacle_id_,
        pc.side_pass_front_blocking_obstacle_id⟩
      (show (-100 : ℚ) < 0 by norm_num) rfl hf
    exact hmem

/-- C3 witness: the amended invariant at a concrete frame with a stale
incoming id. -/
theorem hasBlockingObstacle_id_in_registry_witness :
    sampleFrame.reference_line_info = [sampleRl] ∧
    ((HasBlockingObstacle sampleExt staleScn stalePc
        sampleFrame).2.1.side_pass_context_.front_blocking_obstacle_id_ = "" ∨
     ∃ o ∈ sampleRl.path_decision_obstacles,
       o.id = (HasBlockingObstacle sampleExt staleScn stalePc
         sampleFrame).2.1.side_pass_context_.front_blocking_obstacle_id_) :=
  ⟨rfl, hasBlockingObstacle_id_in_registry sampleExt staleScn stalePc sampleFrame
    sampleRl rfl⟩

/-- Cross-cycle state naming an obstacle absent from every snapshot below. -/
def ghostPc : PlanningContextState := { side_pass_front_blocking_obstacle_id := "ghost" }

/-- Reference line with an empty obstacle registry. -/
def emptyRl : ReferenceLineInfo :=
  { adc_sl_boundary := ⟨-5, 0⟩
    s_distance_to_destination := 20
    first_encountered_overlaps := []
    path_decision_obstacles := [] }

/-- Frame with an empty obstacle registry. -/
def emptyFrame : Frame := { reference_line_info := [emptyRl], obstacles := [] }

/-- Scenario config value for the constructor counterexample. -/
def scnCfg : ScenarioConfig := { side_pass_config := sampleConfig }

/-- C3 counterexample: construction is a public operation, and it seeds the
tracked id from the cross-cycle slot without checking the snapshot, so right
after construction the id "ghost" is neither empty nor present in the latest
snapshot's (empty) obstacle registry. -/
theorem construct_stale_id_cex :
    (SidePassScenario.construct scnCfg
      ghostPc).side_pass_context_.front_blocking_obstacle_id_ = "ghost" ∧
    emptyFrame.Find "ghost" = none ∧
    ¬ ((SidePassScenario.construct scnCfg
          ghostPc).side_pass_context_.front_blocking_obstacle_id_ = "" ∨
       ∃ o ∈ emptyRl.path_decision_obstacles,
         o.id = (SidePassScenario.construct scnCfg
           ghostPc).side_pass_context_.front_blocking_obstacle_id_) := by
  decide

/-- C1 (amended): with exactly one reference line, at least one
blocking-classified obstacle, and every blocking-classified obstacle's
ego-obstacle distance nonnegative, `HasBlockingObstacle` returns true and the
tracked id in both the context and the cross-cycle slot is the id of the
blocking obstacle with the smallest distance, ties broken by scan order
(first-scanned wins).  (Without the nonnegativity proviso the sentinel test
`distance_to_closest < 0.0` re-arms and the claim fails.) -/
theorem hasBlockingObstacle_tracks_closest (ext : Externals) (s : SidePassScenario)
    (pc : PlanningContextState) (frame : Frame) (rl : ReferenceLineInfo)
    (h1 : frame.reference_line_info = [rl])
    (hnn : ∀ o ∈ rl.path_decision_obstacles,
      blocks ext frame s.side_pass_context_.scenario_config_ o = true →
      0 ≤ ext.GetDistanceBetweenADCAndObstacle frame o)
    (hex : rl.path_decision_obstacles.filter
      (fun o => blocks ext frame s.side_pass_context_.scenario_config_ o) ≠ []) :
    ∃ b : Obstacle,
      firstClosest (ext.GetDistanceBetweenADCAndObstacle frame)
        (rl.path_decision_obstacles.filter
          (fun o => blocks ext frame s.side_pass_context_.scenario_config_ o)) =
        some b ∧
      (HasBlockingObstacle ext s pc frame).1 = true ∧
      (HasBlockingObstacle ext s pc
        frame).2.1.side_pass_context_.front_blocking_obstacle_id_ = b.id ∧
      (HasBlockingObstacle ext s pc
        frame).2.2.side_pass_front_blocking_obstacle_id = b.id := by
  obtain ⟨b0, bs, hfil⟩ : ∃ b0 bs, rl.path_decision_obstacles.filter
      (fun o => blocks ext frame s.side_pass_context_.scenario_config_ o) = b0 :: bs := by
    cases hc : rl.path_decision_obstacles.filter
        (fun o => blocks ext frame s.side_pass_context_.scenario_config_ o) with
    | nil => exact absurd hc hex
    | cons a l => exact ⟨a, l, rfl⟩
  have hscan := scanObstacles_start ext frame s.side_pass_context_.scenario_config_
    rl.path_decision_obstacles
    ⟨-100, false, s.side_pass_context_.front_blocking_obstacle_id_,
      pc.side_pass_front_blocking_obstacle_id⟩
    (show (-100 : ℚ) < 0 by norm_num) hnn b0 bs hfil
  have hrm := runMin_eq_firstClosest (ext.GetDistanceBetweenADCAndObstacle frame) bs
    (ext.GetDistanceBetweenADCAndObstacle frame b0) b0.id
  rw [hasBlockingObstacle_single ext s pc frame rl h1, hfil, hscan]
  cases hfc : firstClosest (ext.GetDistanceBetweenADCAndObstacle frame) bs with
  | none =>
    have hv : runMin (ext.GetDistanceBetweenADCAndObstacle frame)
        (ext.GetDistanceBetweenADCAndObstacle frame b0) b0.id bs =
        (ext.GetDistanceBetweenADCAndObstacle frame b0, b0.id) := by
      rw [hrm, hfc]
      rfl
    refine ⟨b0, by simp [firstClosest, hfc], rfl, ?_, ?_⟩
    · rw [hv]; rfl
    · rw [hv]; rfl
  | some b2 =>
    by_cases hlt : ext.GetDistanceBetweenADCAndObstacle frame b2 <
        ext.GetDistanceBetweenADCAndObstacle frame b0
    · have hv : runMin (ext.GetDistanceBetweenADCAndObstacle frame)
          (ext.GetDistanceBetweenADCAndObstacle frame b0) b0.id bs =
          (ext.GetDistanceBetweenADCAndObstacle frame b2, b2.id) := by
        rw [hrm, hfc]
        simp [hlt]
      refine ⟨b2, by simp [firstClosest, hfc, hlt], rfl, ?_, ?_⟩
      · rw [hv]; rfl
      · rw [hv]; rfl
    · have hv : runMin (ext.GetDistanceBetweenADCAndObstacle frame)
          (ext.GetDistanceBetweenADCAndObstacle frame b0) b0.id bs =
          (ext.GetDistanceBetweenADCAndObstacle frame b0, b0.id) := by
        rw [hrm, hfc]
        simp [hlt]
      refine ⟨b0, by simp [firstClosest, hfc, hlt], rfl, ?_, ?_⟩
      · rw [hv]; rfl
      · rw [hv]; rfl

/-- C1 witness: two blocking obstacles at distances 8 and 3 — the tracked id
is the gap-3 obstacle, the first-scanned minimal-distance blocker. -/
theorem hasBlockingObstacle_tracks_closest_witness :
    sampleFrame.reference_line_info = [sampleRl] ∧
    (∀ o ∈ sampleRl.path_decision_obstacles,
      blocks sampleExt sampleFrame sampleScn.side_pass_context_.scenario_config_ o = true →
      0 ≤ sampleExt.GetDistanceBetweenADCAndObstacle sampleFrame o) ∧
    sampleRl.path_decision_obstacles.filter
      (fun o => blocks sampleExt sampleFrame
        sampleScn.side_pass_context_.scenario_config_ o) ≠ [] ∧
    ∃ b : Obstacle,
      firstClosest (sampleExt.GetDistanceBetweenADCAndObstacle sampleFrame)
        (sampleRl.path_decision_obstacles.filter
          (fun o => blocks sampleExt sampleFrame
            sampleScn.side_pass_context_.scenario_config_ o)) = some b ∧
      (HasBlockingObstacle sampleExt sampleScn samplePc sampleFrame).1 = true ∧
      (HasBlockingObstacle sampleExt sampleScn samplePc
        sampleFrame).2.1.side_pass_context_.front_blocking_obstacle_id_ = b.id ∧
      (HasBlockingObstacle sampleExt sampleScn samplePc
        sampleFrame).2.2.side_pass_front_blocking_obstacle_id = b.id :=
  ⟨rfl, by decide, by decide,
   hasBlockingObstacle_tracks_closest sampleExt sampleScn samplePc sampleFrame
     sampleRl rfl (by decide) (by decide)⟩

/-- Externals assigning obstacle "a" a negative distance and every other
obstacle distance 3; everything classifies as blocking. -/
def negExt : Externals :=
  { IsBlockingObstacleToSidePass := fun _ _ _ _ _ => true
    GetDistanceBetweenADCAndObstacle := fun _ o => if o.id = "a" then -5 else 3 }

/-- Obstacle "a" of the negative-distance counterexample. -/
def obsA : Obstacle := { id := "a", is_static := true, perception_sl_boundary := ⟨0, 1⟩ }

/-- Obstacle "b" of the negative-distance counterexample. -/
def obsB : Obstacle := { id := "b", is_static := true, perception_sl_boundary := ⟨0, 1⟩ }

/-- Reference line scanning "a" (distance -5) before "b" (distance 3). -/
def negRl : ReferenceLineInfo :=
  { adc_sl_boundary := ⟨-5, 0⟩
    s_distance_to_destination := 20
    first_encountered_overlaps := []
    path_decision_obstacles := [obsA, obsB] }

/-- Frame of the negative-distance counterexample. -/
def negFrame : Frame := { reference_line_info := [negRl], obstacles := [obsA, obsB] }

/-- C1 counterexample: with a negative ego-obstacle distance the sentinel test
`distance_to_closest < 0.0` re-arms after recording "a" (distance -5), so the
farther obstacle "b" (distance 3) overwrites it and ends up tracked in both
slots, although the blocking obstacle with the smallest distance (first-wins)
is "a". -/
theorem hasBlockingObstacle_tracks_closest_cex :
    (HasBlockingObstacle negExt sampleScn samplePc
      negFrame).2.1.side_pass_context_.front_blocking_obstacle_id_ = "b" ∧
    (HasBlockingObstacle negExt sampleScn samplePc
      negFrame).2.2.side_pass_front_blocking_obstacle_id = "b" ∧
    (firstClosest (negExt.GetDistanceBetweenADCAndObstacle negFrame)
      (negRl.path_decision_obstacles.filter
        (fun o => blocks negExt negFrame
          sampleScn.side_pass_context_.scenario_config_ o))).map Obstacle.id =
      some "a" := by
  decide

/-- The empty stage factory. -/
def emptyFactory : StageFactory := []

/-- C9: for every stage configuration whose stage type is not registered
after `RegisterStages`, `CreateStage` returns null and the error log contains
the requested stage configuration's DebugString; the result is total (a Lean
function cannot throw). -/
theorem createStage_unregistered_null (f : StageFactory) (s : SidePassScenario)
    (stage_config : StageConfig)
    (h : ∀ e ∈ RegisterStages f, e.1 ≠ stage_config.stage_type) :
    (CreateStage f s stage_config).1 = none ∧
    ∃ pre post : String,
      (CreateStage f s stage_config).2.2 =
        [pre ++ stage_config.DebugString ++ post] := by
  have hfind : List.find? (fun e => decide (e.1 = stage_config.stage_type))
      (RegisterStages f) = none := by
    rw [List.find?_eq_none]
    intro x hx
    simpa using h x hx
  unfold CreateStage factoryCreateObjectOrNull
  dsimp only
  rw [hfind]
  exact ⟨rfl, "Failed to create stage for config: ", "", by simp⟩

/-- Stage config requesting a stage type that is never registered. -/
def unregisteredCfg : StageConfig := { stage_type := StageType.SIDE_PASS_BACKUP }

/-- C9 witness: an unregistered stage type at the concrete empty factory. -/
theorem createStage_unregistered_null_witness :
    (∀ e ∈ RegisterStages emptyFactory, e.1 ≠ unregisteredCfg.stage_type) ∧
    ((CreateStage emptyFactory sampleScn unregisteredCfg).1 = none ∧
     ∃ pre post : String,
       (CreateStage emptyFactory sampleScn unregisteredCfg).2.2 =
         [pre ++ unregisteredCfg.DebugString ++ post]) :=
  ⟨by decide, createStage_unregistered_null emptyFactory sampleScn unregisteredCfg
    (by decide)⟩

end SidePassModel
